import Mathlib

/-!
Shallow embedding of the Spotify client token lifecycle and authenticated
request pipeline (`src/spotifyclient.py`, `src/auth.py`).

Time is modelled with `Int` epoch seconds.  A JSON token file is modelled by
`TokenFile`, where a `none` field means the key is absent from the JSON
object.  Python exceptions become explicit error values; effectful calls
(HTTP, `time.time()`) become explicit parameters (oracles).
-/

/-- The on-disk token JSON object (`tokens.json`).  Each field is `none` when
the corresponding key is absent from the file. -/
structure TokenFile where
  access_token : Option String
  refresh_token : Option String
  expires_at : Option Int
  expires_in : Option Int
deriving DecidableEq, Repr

/-- The mutable fields of `SpotifyClient` after a successful load:
`self.access_token`, `self.refresh_token`, `self.expires_at`. -/
structure ClientState where
  access_token : String
  refresh_token : String
  expires_at : Int
deriving DecidableEq, Repr

/-- Errors raised by `SpotifyClient._load_tokens`: `FileNotFoundError` maps to
the "Tokens not found" `RuntimeError`, a `KeyError` (missing field) maps to
the "Malformed token file" `RuntimeError`. -/
inductive LoadError
  | tokensNotFound
  | malformedTokenFile
deriving DecidableEq, Repr

/-- `SpotifyClient._load_tokens` (spotifyclient.py lines 19-41).  The file
argument is `none` when the token file is absent (`FileNotFoundError`).
Fields are read in source order: `access_token`, `refresh_token`, then
`expires_at` (new format) else `expires_in` (old format, normalized to an
absolute timestamp using `now = time.time()` at load time), else `KeyError`. -/
def load_tokens (file : Option TokenFile) (now : Int) : Except LoadError ClientState :=
  match file with
  | none => .error .tokensNotFound
  | some tokens =>
    match tokens.access_token with
    | none => .error .malformedTokenFile
    | some a =>
      match tokens.refresh_token with
      | none => .error .malformedTokenFile
      | some r =>
        match tokens.expires_at with
        | some e => .ok ⟨a, r, e⟩
        | none =>
          match tokens.expires_in with
          | some e => .ok ⟨a, r, now + e⟩
          | none => .error .malformedTokenFile

/-- The JSON object written by `SpotifyClient.save_tokens`
(spotifyclient.py lines 48-52): all three fields, with the expiry stored
under the absolute `expires_at` key and no `expires_in` key. -/
def save_tokens (s : ClientState) : TokenFile :=
  { access_token := some s.access_token
    refresh_token := some s.refresh_token
    expires_at := some s.expires_at
    expires_in := none }

/-- `SpotifyClient.is_token_expired` (spotifyclient.py line 106):
`self.expires_at < time.time() + buffer`.  The Python default buffer is 10. -/
def is_token_expired (expires_at now buffer : Int) : Bool :=
  decide (expires_at < now + buffer)

/-- The provider JSON returned by the token endpoint on a refresh request.
A `none` field means the key is absent from the response object. -/
structure RefreshResponse where
  error : Option String
  access_token : Option String
  refresh_token : Option String
  expires_in : Option Int
deriving DecidableEq, Repr

/-- Errors raised by `SpotifyClient.refresh_access_token`. -/
inductive RefreshError
  | noRefreshToken
  | refreshFailed (payload : String)
  | keyError
deriving DecidableEq, Repr

/-- Outcome of `SpotifyClient.refresh_access_token`: the error (if raised),
the client state at return/raise time (Python mutates `self` field by field,
so a `KeyError` on `expires_in` happens after `access_token` was already
reassigned), and the token file written by `save_tokens` (if reached). -/
structure RefreshResult where
  error : Option RefreshError
  state : ClientState
  wrote : Option TokenFile
deriving DecidableEq, Repr

/-- `SpotifyClient.refresh_access_token` (spotifyclient.py lines 62-100),
with the HTTP response body passed in as `tokens` and `time.time()` as `now`.
Order of the source: guard on a falsy `self.refresh_token`; raise if the
response contains an `error` key; assign `self.access_token`; conditionally
assign `self.refresh_token`; assign `self.expires_at := now + expires_in`;
`self.save_tokens()`. -/
def refresh_access_token (s : ClientState) (tokens : RefreshResponse) (now : Int) :
    RefreshResult :=
  if s.refresh_token = "" then
    { error := some .noRefreshToken, state := s, wrote := none }
  else if tokens.error.isSome then
    { error := some (.refreshFailed (tokens.error.getD "")), state := s, wrote := none }
  else
    match tokens.access_token with
    | none => { error := some .keyError, state := s, wrote := none }
    | some a =>
      let s1 : ClientState := { s with access_token := a }
      let s2 : ClientState :=
        match tokens.refresh_token with
        | some r => { s1 with refresh_token := r }
        | none => s1
      match tokens.expires_in with
      | none => { error := some .keyError, state := s2, wrote := none }
      | some e =>
        let s3 : ClientState := { s2 with expires_at := now + e }
        { error := none, state := s3, wrote := some (save_tokens s3) }

/-- The provider JSON returned by the token endpoint on the initial
authorization-code exchange (`collect_tokens` in auth.py). -/
structure AuthTokens where
  access_token : String
  refresh_token : String
  expires_in : Option Int
deriving DecidableEq, Repr

/-- The JSON object written to `tokens.json` by `main` in auth.py
(lines 140-145): it stores the provider's relative `expires_in` value
verbatim (`tokens.get("expires_in")`) and writes no `expires_at` key. -/
def tokens_to_store (tokens : AuthTokens) : TokenFile :=
  { access_token := some tokens.access_token
    refresh_token := some tokens.refresh_token
    expires_at := none
    expires_in := tokens.expires_in }

instance {ε α : Type} [DecidableEq ε] [DecidableEq α] : DecidableEq (Except ε α) :=
  fun a b =>
    match a, b with
    | .error x, .error y =>
      if h : x = y then .isTrue (by simp [h]) else .isFalse (by simp [h])
    | .error _, .ok _ => .isFalse (by simp)
    | .ok _, .error _ => .isFalse (by simp)
    | .ok x, .ok y =>
      if h : x = y then .isTrue (by simp [h]) else .isFalse (by simp [h])

/-- A parsed JSON body as used by `paginate`: the `items` array (here a list
of opaque item identifiers) and the `next` cursor.  A `none` field means the
key is absent (or JSON null, which `dict.get` also returns as `None`). -/
structure PageBody where
  items : Option (List String)
  next : Option String
deriving DecidableEq, Repr

/-- An HTTP response as consumed by `SpotifyClient.request`: `status_code`,
`text` (used in the failure message) and the parsed JSON body. -/
structure HttpResp where
  status : Nat
  text : String
  body : PageBody
deriving DecidableEq, Repr

/-- Errors raised by `SpotifyClient.request`: the "Spotify API request
failed [status]: text" `RuntimeError`, or an error propagated from
`refresh_access_token`. -/
inductive ReqError
  | apiRequestFailed (status : Nat) (text : String)
  | refresh (e : RefreshError)
deriving DecidableEq, Repr

/-- Observable outcome of one `SpotifyClient.request` call: the returned
body or raised error, the final client state, the token files written (one
per completed refresh), the number of `refresh_access_token` invocations,
and the number of HTTP requests issued (`_make_request` calls). -/
structure ReqTrace where
  result : Except ReqError PageBody
  state : ClientState
  writes : List TokenFile
  refreshes : Nat
  requests : Nat
deriving DecidableEq, Repr

/-- `SpotifyClient.request` (spotifyclient.py lines 109-142).  `refreshO k`
is the provider response to the k-th refresh POST of this call; `httpO k` is
the response to the k-th `_make_request` call.  Source order: proactive
refresh when `is_token_expired()` (buffer 10); first attempt; on a 401
status, refresh once more and retry exactly once; any final status >= 400
raises the request-failed error; otherwise the parsed body is returned. -/
def request (s0 : ClientState) (now : Int)
    (refreshO : Nat → RefreshResponse) (httpO : Nat → HttpResp) : ReqTrace :=
  let proactive := is_token_expired s0.expires_at now 10
  let r0 := refresh_access_token s0 (refreshO 0) now
  let s1 := if proactive then r0.state else s0
  let w1 := if proactive then r0.wrote.toList else []
  let rc1 := if proactive then 1 else 0
  let e1 : Option RefreshError := if proactive then r0.error else none
  match e1 with
  | some e =>
    { result := .error (.refresh e), state := s1, writes := w1,
      refreshes := rc1, requests := 0 }
  | none =>
    let resp1 := httpO 0
    if resp1.status = 401 then
      let r1 := refresh_access_token s1 (refreshO rc1) now
      match r1.error with
      | some e =>
        { result := .error (.refresh e), state := r1.state,
          writes := w1 ++ r1.wrote.toList, refreshes := rc1 + 1, requests := 1 }
      | none =>
        let resp2 := httpO 1
        if 400 ≤ resp2.status then
          { result := .error (.apiRequestFailed resp2.status resp2.text),
            state := r1.state, writes := w1 ++ r1.wrote.toList,
            refreshes := rc1 + 1, requests := 2 }
        else
          { result := .ok resp2.body, state := r1.state,
            writes := w1 ++ r1.wrote.toList, refreshes := rc1 + 1, requests := 2 }
    else
      if 400 ≤ resp1.status then
        { result := .error (.apiRequestFailed resp1.status resp1.text),
          state := s1, writes := w1, refreshes := rc1, requests := 1 }
      else
        { result := .ok resp1.body, state := s1, writes := w1,
          refreshes := rc1, requests := 1 }

/-- Request parameters (e.g. `{'limit': 50}`), carried opaquely. -/
abbrev Params := List (String × Nat)

/-- Python truthiness of the pagination cursor: `None` and `""` are falsy. -/
def truthy (url : Option String) : Bool :=
  match url with
  | none => false
  | some u => decide (u ≠ "")

/-- The hardcoded base URL stripped from the `next` cursor in `paginate`. -/
def base_url : String := "https://api.spotify.com"

/-- Errors raised by `SpotifyClient.paginate`: the "non-paginated endpoint"
`RuntimeError`, or an error propagated from `self.request`. -/
inductive PaginateError
  | notPaginated
  | api (e : ReqError)
deriving DecidableEq, Repr

/-- Replacement of the leftmost-first non-overlapping occurrences of
`pattern` in a character list, scanning left to right, as Python's
`str.replace` does for a non-empty pattern.  The fuel argument (instantiated
with the string length, an upper bound on the number of scan steps) keeps
the recursion structural. -/
def str_replace_go (pattern repl : List Char) : Nat → List Char → List Char
  | 0, s => s
  | fuel + 1, s =>
    match s with
    | [] => []
    | c :: rest =>
      if pattern ≠ [] ∧ s.take pattern.length = pattern then
        repl ++ str_replace_go pattern repl fuel (s.drop pattern.length)
      else c :: str_replace_go pattern repl fuel rest

/-- Python's `url.replace(pattern, repl)` for the non-empty pattern used by
`paginate` (the empty-pattern case of Python, which inserts `repl` between
characters, is not modelled since the source only replaces the fixed
non-empty base URL). -/
def str_replace (s pattern repl : String) : String :=
  ⟨str_replace_go pattern.data repl.data s.data.length s.data⟩

set_option synthInstance.maxSize 512 in
instance :
    DecidableEq (Except PaginateError (List String) × List (String × Option Params)) :=
  inferInstance

/-- The cursor for the next loop iteration (spotifyclient.py lines 200-204):
`url = response.get('next')`, then if truthy, the base URL prefix is
stripped with `str.replace`. -/
def next_url (body : PageBody) : Option String :=
  if truthy body.next then body.next.map (fun n => str_replace n base_url "") else body.next

/-- The `while url:` loop of `SpotifyClient.paginate` (spotifyclient.py lines
192-204).  `fetch u cp` stands for `self.request('GET', u, params=cp)`
(returning the parsed body or the raised error); `items` and `calls`
accumulate the collected items and the (url, params) of each issued request.
`fuel` bounds the number of iterations modelled; `none` means the loop was
still running when the fuel ran out. -/
def paginate_go (fetch : String → Option Params → Except ReqError PageBody) :
    Nat → Option String → Option Params → List String →
    List (String × Option Params) →
    Option (Except PaginateError (List String) × List (String × Option Params))
  | 0, url, _, items, calls =>
    if truthy url then none else some (.ok items, calls)
  | fuel + 1, url, cp, items, calls =>
    if truthy url then
      let u := url.getD ""
      let calls1 := calls ++ [(u, cp)]
      match fetch u cp with
      | .error e => some (.error (.api e), calls1)
      | .ok body =>
        match body.items with
        | none => some (.error .notPaginated, calls1)
        | some its => paginate_go fetch fuel (next_url body) none (items ++ its) calls1
    else some (.ok items, calls)

/-- `SpotifyClient.paginate (endpoint, params)` (spotifyclient.py lines
187-206): starts the loop at the caller-supplied endpoint and params with an
empty accumulator. -/
def paginate (fetch : String → Option Params → Except ReqError PageBody)
    (fuel : Nat) (endpoint : String) (params : Option Params) :
    Option (Except PaginateError (List String) × List (String × Option Params)) :=
  paginate_go fetch fuel (some endpoint) params [] []

/-- `chain_steps fetch url cp pages` holds when, starting the loop at `url`
with params `cp`, the fetches succeed page by page along `pages`: each cursor
is truthy, each fetch returns the page, and each page has an `items` field. -/
def chain_steps (fetch : String → Option Params → Except ReqError PageBody) :
    Option String → Option Params → List PageBody → Bool
  | _, _, [] => true
  | url, cp, body :: rest =>
    truthy url && decide (fetch (url.getD "") cp = .ok body) &&
      body.items.isSome && chain_steps fetch (next_url body) none rest

/-- The cursor the loop holds after consuming `pages`, starting from `url`. -/
def chain_end : Option String → List PageBody → Option String
  | url, [] => url
  | _, body :: rest => chain_end (next_url body) rest

/-- The params the loop holds after consuming `pages`: the caller's params
before the first request, `None` afterwards. -/
def end_params (cp : Option Params) : List PageBody → Option Params
  | [] => cp
  | _ :: _ => none

/-- The (url, params) pairs of the requests issued while consuming `pages`. -/
def chain_calls : Option String → Option Params → List PageBody → List (String × Option Params)
  | _, _, [] => []
  | url, cp, body :: rest => (url.getD "", cp) :: chain_calls (next_url body) none rest

/-- The concatenation of the `items` arrays of `pages`, in page order. -/
def chain_items : List PageBody → List String
  | [] => []
  | body :: rest => body.items.getD [] ++ chain_items rest

/-- On-disk content of the token file as seen by `save_tokens`: a previously
written JSON object, or the truncated/partially-written content left by
`open(file, "w")` before `json.dump` completes. -/
inductive FileContent
  | absent
  | truncated
  | complete (t : TokenFile)
deriving DecidableEq, Repr

/-- The successive on-disk contents of the token file during
`SpotifyClient.save_tokens` (spotifyclient.py lines 54-58): the original
content, then the in-place truncation done by `open(self.tokens_file, "w")`,
then the full new JSON written by `json.dump`.  There is no
temp-file-then-rename step. -/
def save_write_states (orig : FileContent) (s : ClientState) : List FileContent :=
  [orig, .truncated, .complete (save_tokens s)]

/-- Running `save_tokens` with an `OSError` injected after `errAfter`
primitive file operations (`some 0`: before the file is opened, e.g. the
`mkdir` call fails; `some 1`: after `open("w")` truncated the file but
before `json.dump` completed; `none`: no error).  The caught `OSError` is
re-raised as the "Unable to save tokens" `RuntimeError`
(`TokenPersistenceFailed`); the second component is the resulting content. -/
def save_tokens_run (orig : FileContent) (s : ClientState) (errAfter : Option Nat) :
    Except String Unit × FileContent :=
  match errAfter with
  | none => (.ok (), .complete (save_tokens s))
  | some k => (.error "Unable to save tokens", (save_write_states orig s).getD (min k 1) orig)

/-! ## Claim theorems -/

/-- C2 counterexample: the claim "is_token_expired returns true iff
now + buffer >= expires_at" fails at expires_at = 10, now = 0, buffer = 10:
there now + buffer >= expires_at holds with equality, but the code's strict
comparison `expires_at < now + buffer` returns false. -/
theorem is_token_expired_ge_boundary_fails :
    ¬ (is_token_expired 10 0 10 = true ↔ (0 : Int) + 10 ≥ 10) := by decide

/-- C2 (amended): `is_token_expired` returns true iff now + buffer is
STRICTLY greater than expires_at; the claim's own boundary cases hold as
stated: at now = expires_at - buffer it returns false, and at
now = expires_at - buffer + 1 it returns true. -/
theorem is_token_expired_strict (expires_at now buffer : Int) :
    (is_token_expired expires_at now buffer = true ↔ now + buffer > expires_at) ∧
    is_token_expired expires_at (expires_at - buffer) buffer = false ∧
    is_token_expired expires_at (expires_at - buffer + 1) buffer = true := by
  refine ⟨?_, ?_, ?_⟩ <;> simp [is_token_expired] <;> omega

/-- C3 counterexample: the initial store after the authorization handshake
(`main` in auth.py) persists the provider's relative `expires_in` (here
3600 seconds) verbatim and writes no absolute `expires_at` key, refuting
"every token-set persistence operation writes the expiry as an absolute
timestamp, never as a relative seconds-remaining duration". -/
theorem auth_store_writes_relative_expiry :
    (tokens_to_store ⟨"acc", "ref", some 3600⟩).expires_in = some 3600 ∧
    (tokens_to_store ⟨"acc", "ref", some 3600⟩).expires_at = none := by decide

/-- C3 (amended): saves after a refresh (`save_tokens`) persist the expiry
as an absolute `expires_at` with no relative field, but the initial store
after the authorization handshake writes the provider's relative
`expires_in` unconverted (with no `expires_at`), relying on load-time
normalization. -/
theorem expiry_persistence_forms (s : ClientState) (t : AuthTokens) :
    (save_tokens s).expires_at = some s.expires_at ∧
    (save_tokens s).expires_in = none ∧
    (tokens_to_store t).expires_at = none ∧
    (tokens_to_store t).expires_in = t.expires_in :=
  ⟨rfl, rfl, rfl, rfl⟩

/-- C5: a successful refresh whose provider response omits `refresh_token`
keeps the prior refresh token while updating `access_token` and
`expires_at`; when the response supplies one, it replaces the stored one;
the updated token set is persisted. -/
theorem refresh_retains_prior_refresh_token (s : ClientState) (resp : RefreshResponse)
    (now : Int) (a : String) (e : Int)
    (hrt : s.refresh_token ≠ "")
    (herr : resp.error = none)
    (ha : resp.access_token = some a)
    (he : resp.expires_in = some e) :
    (refresh_access_token s resp now).error = none ∧
    (refresh_access_token s resp now).state.access_token = a ∧
    (refresh_access_token s resp now).state.expires_at = now + e ∧
    (resp.refresh_token = none →
      (refresh_access_token s resp now).state.refresh_token = s.refresh_token) ∧
    (∀ r, resp.refresh_token = some r →
      (refresh_access_token s resp now).state.refresh_token = r) ∧
    (refresh_access_token s resp now).wrote =
      some (save_tokens (refresh_access_token s resp now).state) := by
  cases hrtok : resp.refresh_token <;>
    simp [refresh_access_token, hrt, herr, ha, he, hrtok]

/-- C5 witness: a concrete refresh at now = 100 with response
{access_token: "new", expires_in: 3600} and no refresh_token keeps the
prior refresh token "keep". -/
theorem refresh_retains_prior_refresh_token_witness :
    (refresh_access_token ⟨"old", "keep", 50⟩ ⟨none, some "new", none, some 3600⟩ 100).error = none ∧
    (refresh_access_token ⟨"old", "keep", 50⟩ ⟨none, some "new", none, some 3600⟩ 100).state.access_token = "new" ∧
    (refresh_access_token ⟨"old", "keep", 50⟩ ⟨none, some "new", none, some 3600⟩ 100).state.expires_at = 100 + 3600 ∧
    ((⟨none, some "new", none, some 3600⟩ : RefreshResponse).refresh_token = none →
      (refresh_access_token ⟨"old", "keep", 50⟩ ⟨none, some "new", none, some 3600⟩ 100).state.refresh_token = "keep") ∧
    (∀ r, (⟨none, some "new", none, some 3600⟩ : RefreshResponse).refresh_token = some r →
      (refresh_access_token ⟨"old", "keep", 50⟩ ⟨none, some "new", none, some 3600⟩ 100).state.refresh_token = r) ∧
    (refresh_access_token ⟨"old", "keep", 50⟩ ⟨none, some "new", none, some 3600⟩ 100).wrote =
      some (save_tokens (refresh_access_token ⟨"old", "keep", 50⟩ ⟨none, some "new", none, some 3600⟩ 100).state) :=
  refresh_retains_prior_refresh_token ⟨"old", "keep", 50⟩ ⟨none, some "new", none, some 3600⟩
    100 "new" 3600 (by decide) rfl rfl rfl

/-- C6: loading fails with TokensNotFound exactly when the token file is
absent; with a file present, it fails with MalformedTokenFile iff a required
field is missing (access_token, refresh_token, or both expiry fields —
in particular when neither `expires_at` nor `expires_in` is present), and
succeeds otherwise. -/
theorem load_tokens_error_cases (t : TokenFile) (now : Int) :
    load_tokens none now = .error .tokensNotFound ∧
    (load_tokens (some t) now = .error .malformedTokenFile ↔
      t.access_token = none ∨ t.refresh_token = none ∨
        (t.expires_at = none ∧ t.expires_in = none)) ∧
    ((∃ s, load_tokens (some t) now = .ok s) ↔
      t.access_token ≠ none ∧ t.refresh_token ≠ none ∧
        (t.expires_at ≠ none ∨ t.expires_in ≠ none)) := by
  obtain ⟨a, r, ea, ei⟩ := t
  refine ⟨rfl, ?_, ?_⟩ <;>
    cases a <;> cases r <;> cases ea <;> cases ei <;> simp [load_tokens]

/-- C7: loading a token file carrying a legacy relative `expires_in` (and
no `expires_at`) normalizes it to an absolute in-memory expiry equal to
load-time-now plus expires_in, and the next save persists that value under
the absolute `expires_at` key with no relative field. -/
theorem load_legacy_expires_in_normalizes (t : TokenFile) (now e : Int) (a r : String)
    (ha : t.access_token = some a) (hr : t.refresh_token = some r)
    (hea : t.expires_at = none) (hei : t.expires_in = some e) :
    load_tokens (some t) now = .ok ⟨a, r, now + e⟩ ∧
    (save_tokens ⟨a, r, now + e⟩).expires_at = some (now + e) ∧
    (save_tokens ⟨a, r, now + e⟩).expires_in = none := by
  simp [load_tokens, save_tokens, ha, hr, hea, hei]

/-- C7 witness: a concrete legacy file {access_token: "a", refresh_token:
"r", expires_in: 120} loaded at now = 1000 yields expires_at = 1120. -/
theorem load_legacy_expires_in_normalizes_witness :
    load_tokens (some ⟨some "a", some "r", none, some 120⟩) 1000 = .ok ⟨"a", "r", 1000 + 120⟩ ∧
    (save_tokens ⟨"a", "r", 1000 + 120⟩).expires_at = some (1000 + 120) ∧
    (save_tokens ⟨"a", "r", 1000 + 120⟩).expires_in = none :=
  load_legacy_expires_in_normalizes ⟨some "a", some "r", none, some 120⟩ 1000 120 "a" "r"
    rfl rfl rfl rfl

/-- C10: a refresh whose provider response contains an `error` field raises
before mutating any client state: access_token, refresh_token and
expires_at all retain their prior values and no token file is written. -/
theorem refresh_error_response_no_mutation (s : ClientState) (resp : RefreshResponse)
    (now : Int) (herr : resp.error.isSome = true) :
    (refresh_access_token s resp now).error.isSome = true ∧
    (refresh_access_token s resp now).state = s ∧
    (refresh_access_token s resp now).wrote = none := by
  unfold refresh_access_token
  by_cases h : s.refresh_token = "" <;> simp [h, herr]

/-- C10 witness: a concrete refresh against an {error: "invalid_grant"}
response leaves the state ⟨"a", "r", 5⟩ untouched and writes nothing. -/
theorem refresh_error_response_no_mutation_witness :
    (refresh_access_token ⟨"a", "r", 5⟩ ⟨some "invalid_grant", none, none, none⟩ 9).error.isSome = true ∧
    (refresh_access_token ⟨"a", "r", 5⟩ ⟨some "invalid_grant", none, none, none⟩ 9).state = ⟨"a", "r", 5⟩ ∧
    (refresh_access_token ⟨"a", "r", 5⟩ ⟨some "invalid_grant", none, none, none⟩ 9).wrote = none :=
  refresh_error_response_no_mutation ⟨"a", "r", 5⟩ ⟨some "invalid_grant", none, none, none⟩ 9 rfl

/-- C9 counterexample: `save_tokens` opens the token file with mode "w",
truncating it in place before `json.dump` rewrites it; an I/O error injected
after the truncation (errAfter = 1) raises the persistence error but leaves
the file truncated, so the previously valid file
{access_token: "a", refresh_token: "r", expires_at: 100} does NOT remain
intact, refuting the atomicity part of the claim. -/
theorem save_interrupted_write_corrupts :
    (save_tokens_run (.complete ⟨some "a", some "r", some 100, none⟩)
        ⟨"a2", "r2", 200⟩ (some 1)).fst = .error "Unable to save tokens" ∧
    (save_tokens_run (.complete ⟨some "a", some "r", some 100, none⟩)
        ⟨"a2", "r2", 200⟩ (some 1)).snd = .truncated ∧
    FileContent.truncated ≠ .complete ⟨some "a", some "r", some 100, none⟩ ∧
    FileContent.truncated ≠ .complete (save_tokens ⟨"a2", "r2", 200⟩) := by decide

/-- C9 (amended): `save_tokens` writes the full token set (all three fields,
with an absolute `expires_at`) by truncating the token file in place and
rewriting it — there is no temp-file-then-rename step — and it fails with
the persistence error (`TokenPersistenceFailed`) on an I/O error.  An I/O
error before the file is opened leaves the prior content intact, but an I/O
error after `open("w")` leaves the file truncated rather than intact. -/
theorem save_tokens_in_place_write (orig : FileContent) (s : ClientState) :
    save_tokens_run orig s none = (.ok (), .complete (save_tokens s)) ∧
    save_tokens s = ⟨some s.access_token, some s.refresh_token, some s.expires_at, none⟩ ∧
    save_tokens_run orig s (some 0) = (.error "Unable to save tokens", orig) ∧
    save_tokens_run orig s (some 1) = (.error "Unable to save tokens", .truncated) := by
  refine ⟨rfl, rfl, ?_, ?_⟩ <;> simp [save_tokens_run, save_write_states]

/-- C1: when the proactively-checked token is accepted as unexpired but the
first attempt still returns 401, `request` performs exactly one refresh and
exactly one retry (two HTTP requests in total); if the retried request also
returns 401, no further refresh is attempted and the call fails with the
request-failed error carrying the 401 status and the response body text. -/
theorem request_401_refresh_retry_once (s : ClientState) (now : Int)
    (refreshO : Nat → RefreshResponse) (httpO : Nat → HttpResp)
    (hfresh : is_token_expired s.expires_at now 10 = false)
    (hrefresh : (refresh_access_token s (refreshO 0) now).error = none)
    (h1 : (httpO 0).status = 401) :
    (request s now refreshO httpO).refreshes = 1 ∧
    (request s now refreshO httpO).requests = 2 ∧
    ((httpO 1).status = 401 →
      (request s now refreshO httpO).result =
        .error (.apiRequestFailed 401 (httpO 1).text)) := by
  by_cases h2 : 400 ≤ (httpO 1).status <;>
    simp [request, hfresh, h1, hrefresh, h2] <;>
    intro hs <;> simp [hs] at h2 ⊢

/-- C1 witness: a concrete request with a valid-looking token where both
attempts return 401: one refresh, two requests, and the hard failure
carrying status 401 and the body text. -/
theorem request_401_refresh_retry_once_witness :
    (request ⟨"tok", "ref", 1000⟩ 0 (fun _ => ⟨none, some "tok2", none, some 3600⟩)
        (fun _ => ⟨401, "unauthorized", ⟨none, none⟩⟩)).refreshes = 1 ∧
    (request ⟨"tok", "ref", 1000⟩ 0 (fun _ => ⟨none, some "tok2", none, some 3600⟩)
        (fun _ => ⟨401, "unauthorized", ⟨none, none⟩⟩)).requests = 2 ∧
    (((fun _ => ⟨401, "unauthorized", ⟨none, none⟩⟩ : Nat → HttpResp) 1).status = 401 →
      (request ⟨"tok", "ref", 1000⟩ 0 (fun _ => ⟨none, some "tok2", none, some 3600⟩)
          (fun _ => ⟨401, "unauthorized", ⟨none, none⟩⟩)).result =
        .error (.apiRequestFailed 401
          ((fun _ => ⟨401, "unauthorized", ⟨none, none⟩⟩ : Nat → HttpResp) 1).text)) :=
  request_401_refresh_retry_once ⟨"tok", "ref", 1000⟩ 0
    (fun _ => ⟨none, some "tok2", none, some 3600⟩)
    (fun _ => ⟨401, "unauthorized", ⟨none, none⟩⟩) (by decide) (by decide) rfl

theorem end_params_none (rest : List PageBody) : end_params none rest = none := by
  cases rest <;> rfl

/-- Helper: running the pagination loop along a chain of good pages (each
cursor truthy, each fetch succeeding with an `items` field) whose final
cursor is falsy collects `items0` plus all pages' items in order, issuing
exactly the chain's (url, params) requests. -/
theorem paginate_go_chain (fetch : String → Option Params → Except ReqError PageBody)
    (pages : List PageBody) :
    ∀ (fuel : Nat) (url : Option String) (cp : Option Params)
      (items0 : List String) (calls0 : List (String × Option Params)),
      chain_steps fetch url cp pages = true →
      truthy (chain_end url pages) = false →
      pages.length ≤ fuel →
      paginate_go fetch fuel url cp items0 calls0 =
        some (.ok (items0 ++ chain_items pages), calls0 ++ chain_calls url cp pages) := by
  induction pages with
  | nil =>
    intro fuel url cp items0 calls0 _ hend _
    simp [chain_end] at hend
    cases fuel <;> simp [paginate_go, chain_items, chain_calls, hend]
  | cons body rest ih =>
    intro fuel url cp items0 calls0 hsteps hend hfuel
    simp [chain_steps] at hsteps
    obtain ⟨⟨⟨hu, hf⟩, hitems⟩, hrest⟩ := hsteps
    simp [chain_end] at hend
    cases fuel with
    | zero => simp at hfuel
    | succ f =>
      obtain ⟨its, hits⟩ := Option.isSome_iff_exists.mp hitems
      simp only [paginate_go, hu, if_true, hf, hits]
      rw [ih f (next_url body) none (items0 ++ its) (calls0 ++ [(url.getD "", cp)]) hrest hend
        (by simpa using Nat.lt_succ_iff.mp (Nat.lt_of_lt_of_le (Nat.lt_succ_self _) hfuel))]
      simp [chain_items, chain_calls, hits]

/-- Helper: running the pagination loop along a chain of good pages whose
final cursor is truthy, when the fetch at that cursor returns a body with no
`items` field, yields the not-paginated error with exactly one request after
the chain's and nothing collected. -/
theorem paginate_go_not_paginated (fetch : String → Option Params → Except ReqError PageBody)
    (pages : List PageBody) :
    ∀ (fuel : Nat) (url : Option String) (cp : Option Params)
      (items0 : List String) (calls0 : List (String × Option Params)) (body : PageBody),
      chain_steps fetch url cp pages = true →
      truthy (chain_end url pages) = true →
      fetch ((chain_end url pages).getD "") (end_params cp pages) = .ok body →
      body.items = none →
      pages.length < fuel →
      paginate_go fetch fuel url cp items0 calls0 =
        some (.error .notPaginated,
          calls0 ++ chain_calls url cp pages ++
            [((chain_end url pages).getD "", end_params cp pages)]) := by
  induction pages with
  | nil =>
    intro fuel url cp items0 calls0 body _ hend hf hitems hfuel
    cases fuel with
    | zero => simp at hfuel
    | succ f =>
      simp [chain_end, end_params] at hend hf
      simp [paginate_go, hend, hf, hitems, chain_calls, chain_end, end_params]
  | cons page rest ih =>
    intro fuel url cp items0 calls0 body hsteps hend hf hitems hfuel
    simp [chain_steps] at hsteps
    obtain ⟨⟨⟨hu, hpf⟩, hpi⟩, hrest⟩ := hsteps
    simp [chain_end, end_params] at hend hf
    cases fuel with
    | zero => simp at hfuel
    | succ f =>
      obtain ⟨its, hits⟩ := Option.isSome_iff_exists.mp hpi
      simp only [paginate_go, hu, if_true, hpf, hits]
      rw [ih f (next_url page) none (items0 ++ its) (calls0 ++ [(url.getD "", cp)]) body hrest
        hend (by rw [end_params_none]; exact hf) hitems (by simp at hfuel; omega)]
      simp [chain_calls, chain_end, end_params, end_params_none]
      cases rest <;> rfl

/-- C4: for a provider whose pages each carry an `items` array, `paginate`
returns the concatenation of the pages' items in page order and terminates
exactly when a page's `next` cursor is null/absent (falsy); the issued
requests are recorded by `chain_calls`, whose definition shows the first
request uses the caller-supplied endpoint and params and every subsequent
request uses the provider's (base-URL-stripped) `next` cursor with params
cleared to `None`. -/
theorem paginate_concats_pages (fetch : String → Option Params → Except ReqError PageBody)
    (fuel : Nat) (endpoint : String) (params : Option Params) (pages : List PageBody)
    (hsteps : chain_steps fetch (some endpoint) params pages = true)
    (hend : truthy (chain_end (some endpoint) pages) = false)
    (hfuel : pages.length ≤ fuel) :
    paginate fetch fuel endpoint params =
      some (.ok (chain_items pages), chain_calls (some endpoint) params pages) := by
  have h := paginate_go_chain fetch pages fuel (some endpoint) params [] [] hsteps hend hfuel
  simpa [paginate] using h

/-- A concrete 3-page provider with pages of 2, 2 and 1 items and `next`
null on page 3, as in the spec's example. -/
def example_fetch : String → Option Params → Except ReqError PageBody := fun u _ =>
  if u = "/v1/me/playlists" then
    .ok ⟨some ["t1", "t2"], some "https://api.spotify.com/page2"⟩
  else if u = "/page2" then
    .ok ⟨some ["t3", "t4"], some "https://api.spotify.com/page3"⟩
  else if u = "/page3" then
    .ok ⟨some ["t5"], none⟩
  else
    .error (.apiRequestFailed 404 "not found")

/-- C4 witness: on the concrete 3-page provider (pages of 2, 2, 1 items),
`paginate` returns the 5-element concatenation in page order, issuing the
first request at the caller's endpoint/params and the later ones at the
stripped cursors with params cleared. -/
theorem paginate_concats_pages_witness :
    paginate example_fetch 3 "/v1/me/playlists" (some [("limit", 50)]) =
      some (.ok ["t1", "t2", "t3", "t4", "t5"],
        [("/v1/me/playlists", some [("limit", 50)]), ("/page2", none), ("/page3", none)]) := by
  rw [paginate_concats_pages example_fetch 3 "/v1/me/playlists" (some [("limit", 50)])
    [⟨some ["t1", "t2"], some "https://api.spotify.com/page2"⟩,
     ⟨some ["t3", "t4"], some "https://api.spotify.com/page3"⟩,
     ⟨some ["t5"], none⟩] (by decide) (by decide) (by decide)]
  decide

/-- C8: if, after any chain of good pages, a response lacks an `items`
field, `paginate` fails with the not-paginated error: the request log stops
at exactly that response (no further requests are issued) and the items
accumulated so far are discarded rather than returned. -/
theorem paginate_missing_items_fails (fetch : String → Option Params → Except ReqError PageBody)
    (fuel : Nat) (endpoint : String) (params : Option Params) (pages : List PageBody)
    (body : PageBody)
    (hsteps : chain_steps fetch (some endpoint) params pages = true)
    (hend : truthy (chain_end (some endpoint) pages) = true)
    (hf : fetch ((chain_end (some endpoint) pages).getD "")
      (end_params params pages) = .ok body)
    (hitems : body.items = none)
    (hfuel : pages.length < fuel) :
    paginate fetch fuel endpoint params =
      some (.error .notPaginated,
        chain_calls (some endpoint) params pages ++
          [((chain_end (some endpoint) pages).getD "", end_params params pages)]) := by
  have h := paginate_go_not_paginated fetch pages fuel (some endpoint) params [] [] body
    hsteps hend hf hitems hfuel
  simpa [paginate] using h

/-- A concrete provider whose second page lacks an `items` field but still
carries a `next` cursor pointing at a third page. -/
def example_bad_fetch : String → Option Params → Except ReqError PageBody := fun u _ =>
  if u = "/v1/me/top/tracks" then
    .ok ⟨some ["t1", "t2"], some "https://api.spotify.com/page2"⟩
  else if u = "/page2" then
    .ok ⟨none, some "https://api.spotify.com/page3"⟩
  else
    .ok ⟨some ["t9"], none⟩

/-- C8 witness: on the concrete provider whose second page lacks `items`,
`paginate` fails with the not-paginated error after exactly two requests —
the third page (which the bad page's `next` cursor points at) is never
fetched, and the two items collected from page 1 are discarded. -/
theorem paginate_missing_items_fails_witness :
    paginate example_bad_fetch 5 "/v1/me/top/tracks" none =
      some (.error .notPaginated, [("/v1/me/top/tracks", none), ("/page2", none)]) := by
  rw [paginate_missing_items_fails example_bad_fetch 5 "/v1/me/top/tracks" none
    [⟨some ["t1", "t2"], some "https://api.spotify.com/page2"⟩]
    ⟨none, some "https://api.spotify.com/page3"⟩ (by decide) (by decide) (by decide) rfl
    (by decide)]
  decide
